import Mathlib

/-
Verification development for the backlog-manager service
(src/backlog_manager/main.py).

The store is the JSON document `{"issues": {...}}`; Python dicts preserve
insertion order, so mappings are embedded as association lists with the
dict-assignment semantics `alInsert` (update in place when the key exists,
append at the end otherwise).  Each MCP tool is embedded as a pure function
from the freshly loaded store and the session's `active_issue` reference to
the returned message, the store that gets saved, and the updated reference.
`uuid.uuid4()` truncation in `add_task` is nondeterministic, so the generated
identifier is an explicit argument of the embedded function.
-/

namespace Backlog

/-- Embedding of the task JSON object `{title, description, status}`. -/
structure Task where
  title : String
  description : String
  status : String
deriving DecidableEq, Repr

/-- Embedding of the issue JSON object `{description, status, tasks}`;
`tasks` maps task id to task, in insertion order. -/
structure Issue where
  description : String
  status : String
  tasks : List (String × Task)
deriving DecidableEq, Repr

/-- Embedding of the persisted document: the top-level `issues` mapping. -/
structure Store where
  issues : List (String × Issue)
deriving DecidableEq, Repr

/-- The values of the `IssueStatus` enum in main.py. -/
def issueStatusValues : List String := ["New", "InWork", "Done"]

/-- The values of the `TaskStatus` enum in main.py. -/
def taskStatusValues : List String := ["New", "InWork", "Done"]

/-- Python dict assignment `d[k] = v` on an association list: replace in
place when `k` is present, append at the end otherwise. -/
def alInsert {β : Type} (k : String) (v : β) : List (String × β) → List (String × β)
  | [] => [(k, v)]
  | p :: rest => if p.1 = k then (k, v) :: rest else p :: alInsert k v rest

/-- Python truthiness of an optional string (`if not active_issue`):
`None` and the empty string are falsy. -/
def optTruthy : Option String → Bool
  | none => false
  | some s => s != ""

/-- Result of one tool invocation: the returned message, the store as left
on disk, and the session's `active_issue` after the call. -/
structure OpResult where
  msg : String
  store : Store
  activeIssue : Option String
deriving DecidableEq, Repr

/-- Message returned by task operations when `active_issue` is falsy. -/
def noActiveIssueMsg : String :=
  "Error: No active issue. Please select an issue using \x27select_issue\x27 first."

/-- Message of `create_issue` when the name is already a key. -/
def alreadyExistsMsg (name : String) : String :=
  "Error: Issue \x27" ++ name ++ "\x27 already exists."

/-- Message when an issue name does not resolve in the store. -/
def issueNotFoundMsg (name : String) : String :=
  "Error: Issue \x27" ++ name ++ "\x27 not found."

/-- Message when a task id is absent from the active issue. -/
def taskNotFoundMsg (taskId name : String) : String :=
  "Error: Task with ID \x27" ++ taskId ++ "\x27 not found in issue \x27" ++ name ++ "\x27."

/-- Message rejecting a status outside New, InWork, Done. -/
def invalidStatusMsg (status : String) : String :=
  "Error: Invalid status \x27" ++ status ++ "\x27. Valid values are: New, InWork, Done"

/-- Embedding of the `create_issue` tool (main.py lines 107-142). -/
def create_issue (store : Store) (active : Option String)
    (name description status : String) : OpResult :=
  if (store.issues.lookup name).isSome then
    ⟨alreadyExistsMsg name, store, active⟩
  else if status ∈ issueStatusValues then
    ⟨"Successfully created issue: " ++ name ++ " with status: " ++ status,
     ⟨alInsert name ⟨description, status, []⟩ store.issues⟩, some name⟩
  else
    ⟨invalidStatusMsg status, store, active⟩

/-- Embedding of the `initialize_issue` tool (main.py lines 204-238). -/
def initialize_issue (store : Store) (active : Option String)
    (name description status : String) : OpResult :=
  if status ∈ issueStatusValues then
    ⟨"Successfully initialized issue: " ++ name ++ " with status: " ++ status,
     ⟨alInsert name ⟨description, status, []⟩ store.issues⟩, some name⟩
  else
    ⟨invalidStatusMsg status, store, active⟩

/-- Embedding of the `add_task` tool (main.py lines 241-275); `genId` stands
for the freshly drawn `str(uuid.uuid4())[:8]`. -/
def add_task (store : Store) (active : Option String)
    (title description genId : String) : OpResult :=
  if optTruthy active then
    let nm := active.getD ""
    match store.issues.lookup nm with
    | none => ⟨issueNotFoundMsg nm, store, active⟩
    | some issue =>
      ⟨"Successfully added task: " ++ title ++ " (ID: " ++ genId ++
         ") to issue \x27" ++ nm ++ "\x27",
       ⟨alInsert nm { issue with
          tasks := alInsert genId ⟨title, description, "New"⟩ issue.tasks }
        store.issues⟩, active⟩
  else
    ⟨noActiveIssueMsg, store, active⟩

/-- Embedding of the `update_task_status` tool (main.py lines 336-376). -/
def update_task_status (store : Store) (active : Option String)
    (taskId status : String) : OpResult :=
  if optTruthy active then
    let nm := active.getD ""
    match store.issues.lookup nm with
    | none => ⟨issueNotFoundMsg nm, store, active⟩
    | some issue =>
      match issue.tasks.lookup taskId with
      | none => ⟨taskNotFoundMsg taskId nm, store, active⟩
      | some task =>
        if status ∈ taskStatusValues then
          ⟨"Successfully updated task \x27" ++ task.title ++ "\x27 (ID: " ++ taskId ++
             ") status from \x27" ++ task.status ++ "\x27 to \x27" ++ status ++ "\x27.",
           ⟨alInsert nm { issue with
              tasks := alInsert taskId { task with status := status } issue.tasks }
            store.issues⟩, active⟩
        else
          ⟨invalidStatusMsg status, store, active⟩
  else
    ⟨noActiveIssueMsg, store, active⟩

/-- The lines of one task entry in `list_tasks` output, empty when the
status filter skips the task (main.py lines 317-327). -/
def taskEntryLines (status : Option String) (p : String × Task) : List String :=
  if optTruthy status ∧ p.2.status ≠ status.getD "" then []
  else
    ["\nID: " ++ p.1, "Title: " ++ p.2.title, "Status: " ++ p.2.status] ++
      (if p.2.description ≠ "" then ["Description: " ++ p.2.description] else [])

/-- The `result` list built by `list_tasks` on its success path
(main.py lines 310-327). -/
def listTasksLines (nm : String) (issue : Issue) (status : Option String) : List String :=
  ("Tasks for issue: " ++ nm) ::
    ((if issue.description ≠ "" then ["Issue description: " ++ issue.description] else []) ++
      issue.tasks.flatMap (taskEntryLines status))

/-- Embedding of the `list_tasks` tool (main.py lines 277-334); `status` is
the optional status filter. -/
def list_tasks (store : Store) (active : Option String) (status : Option String) : String :=
  if optTruthy active then
    let nm := active.getD ""
    match store.issues.lookup nm with
    | none => issueNotFoundMsg nm
    | some issue =>
      if issue.tasks.length = 0 then
        "No tasks found in issue \x27" ++ nm ++ "\x27."
      else if optTruthy status ∧ status.getD "" ∉ taskStatusValues then
        invalidStatusMsg (status.getD "")
      else
        let result := listTasksLines nm issue status
        if result.length = 1 ∨ (result.length = 2 ∧ issue.description ≠ "") then
          if optTruthy status then
            "No tasks found with status \x27" ++ status.getD "" ++ "\x27"
          else
            "No tasks found"
        else
          String.intercalate "\n" result
  else
    noActiveIssueMsg

theorem lookup_alInsert_self {β : Type} (k : String) (v : β) (l : List (String × β)) :
    (alInsert k v l).lookup k = some v := by
  induction l with
  | nil => simp [alInsert, List.lookup]
  | cons p t ih =>
    by_cases h : p.1 = k
    · simp [alInsert, h, List.lookup]
    · have hb : (k == p.1) = false := by
        simp only [beq_eq_false_iff_ne, ne_eq]
        exact fun e => h e.symm
      simp [alInsert, h, List.lookup, hb, ih]

theorem alInsert_eq_append {β : Type} {k : String} {l : List (String × β)}
    (h : l.lookup k = none) (v : β) : alInsert k v l = l ++ [(k, v)] := by
  induction l with
  | nil => simp [alInsert]
  | cons p t ih =>
    cases hb : (k == p.1) with
    | true => simp [List.lookup, hb] at h
    | false =>
      have h2 : t.lookup k = none := by
        simp only [List.lookup, hb] at h
        exact h
      have hne : p.1 ≠ k := by
        intro e
        rw [e] at hb
        simp at hb
      simp [alInsert, hne, ih h2]

theorem mem_alInsert_self {β : Type} (k : String) (v : β) (l : List (String × β)) :
    (k, v) ∈ alInsert k v l := by
  induction l with
  | nil => simp [alInsert]
  | cons p t ih =>
    by_cases h : p.1 = k <;> simp [alInsert, h, ih]

/-- C1: with `name` fresh and a valid status, `create_issue` appends a new
issue with the given description and status and no tasks, saves it, sets the
active issue and reports success; with `name` already a key it fails with the
AlreadyExists message leaving everything unchanged; with `name` fresh and an
invalid status it fails with the InvalidStatus message. -/
theorem create_issue_spec (store : Store) (active : Option String)
    (name description status : String) :
    ((store.issues.lookup name).isSome →
      create_issue store active name description status =
        ⟨alreadyExistsMsg name, store, active⟩) ∧
    (store.issues.lookup name = none → status ∈ issueStatusValues →
      create_issue store active name description status =
        ⟨"Successfully created issue: " ++ name ++ " with status: " ++ status,
         ⟨store.issues ++ [(name, ⟨description, status, []⟩)]⟩, some name⟩) ∧
    (store.issues.lookup name = none → status ∉ issueStatusValues →
      create_issue store active name description status =
        ⟨invalidStatusMsg status, store, active⟩) := by
  refine ⟨fun h => by simp [create_issue, h], fun h hs => ?_, fun h hs => ?_⟩
  · simp [create_issue, h, hs, alInsert_eq_append h]
  · simp [create_issue, h, hs]

/-- C1 witness: concrete invocations exercising all three branches. -/
theorem create_issue_spec_witness :
    create_issue ⟨[]⟩ none "A" "d" "New" =
      ⟨"Successfully created issue: A with status: New",
       ⟨[("A", ⟨"d", "New", []⟩)]⟩, some "A"⟩ ∧
    create_issue ⟨[("A", ⟨"d", "New", []⟩)]⟩ none "A" "x" "New" =
      ⟨alreadyExistsMsg "A", ⟨[("A", ⟨"d", "New", []⟩)]⟩, none⟩ ∧
    create_issue ⟨[]⟩ none "B" "d" "Bogus" =
      ⟨invalidStatusMsg "Bogus", ⟨[]⟩, none⟩ :=
  ⟨by simpa using
      (create_issue_spec ⟨[]⟩ none "A" "d" "New").2.1 rfl (by decide),
   (create_issue_spec ⟨[("A", ⟨"d", "New", []⟩)]⟩ none "A" "x" "New").1 (by decide),
   (create_issue_spec ⟨[]⟩ none "B" "d" "Bogus").2.2 rfl (by decide)⟩

/-- C2: after a successful `create_issue`, a second `create_issue` with the
same name fails with the AlreadyExists message, the store it leaves is the
one the first call saved, and the issue keeps its original description,
status and empty task mapping. -/
theorem create_issue_twice (store : Store) (active : Option String)
    (name d1 s1 d2 s2 : String)
    (hfresh : store.issues.lookup name = none) (hs1 : s1 ∈ issueStatusValues) :
    create_issue (create_issue store active name d1 s1).store
        (create_issue store active name d1 s1).activeIssue name d2 s2 =
      ⟨alreadyExistsMsg name, (create_issue store active name d1 s1).store,
       (create_issue store active name d1 s1).activeIssue⟩ ∧
    (create_issue store active name d1 s1).store.issues.lookup name =
      some ⟨d1, s1, []⟩ := by
  have h1 : (create_issue store active name d1 s1).store.issues =
      alInsert name ⟨d1, s1, []⟩ store.issues := by
    simp [create_issue, hfresh, hs1]
  have h2 : (create_issue store active name d1 s1).store.issues.lookup name =
      some ⟨d1, s1, []⟩ := by
    rw [h1]; exact lookup_alInsert_self _ _ _
  have key : ∀ r : OpResult, r.store.issues.lookup name = some ⟨d1, s1, []⟩ →
      create_issue r.store r.activeIssue name d2 s2 =
        ⟨alreadyExistsMsg name, r.store, r.activeIssue⟩ := by
    intro r hr
    simp only [create_issue, hr, Option.isSome_some, if_true]
  exact ⟨key _ h2, h2⟩

/-- C2 witness: create "A" twice on an initially empty store. -/
theorem create_issue_twice_witness :
    create_issue (create_issue ⟨[]⟩ none "A" "d" "New").store
        (create_issue ⟨[]⟩ none "A" "d" "New").activeIssue "A" "x" "Done" =
      ⟨alreadyExistsMsg "A", (create_issue ⟨[]⟩ none "A" "d" "New").store,
       (create_issue ⟨[]⟩ none "A" "d" "New").activeIssue⟩ ∧
    (create_issue ⟨[]⟩ none "A" "d" "New").store.issues.lookup "A" =
      some ⟨"d", "New", []⟩ :=
  create_issue_twice ⟨[]⟩ none "A" "d" "New" "x" "Done" rfl (by decide)

/-- C3: `initialize_issue` with a valid status always succeeds — even when
the name already exists — saving the issue with the given description and
status and an empty task mapping (prior tasks discarded), and setting the
active issue; an invalid status fails with the InvalidStatus message and
changes nothing. -/
theorem initialize_issue_spec (store : Store) (active : Option String)
    (name description status : String) :
    (status ∈ issueStatusValues →
      initialize_issue store active name description status =
        ⟨"Successfully initialized issue: " ++ name ++ " with status: " ++ status,
         ⟨alInsert name ⟨description, status, []⟩ store.issues⟩, some name⟩ ∧
      (initialize_issue store active name description status).store.issues.lookup name =
        some ⟨description, status, []⟩) ∧
    (status ∉ issueStatusValues →
      initialize_issue store active name description status =
        ⟨invalidStatusMsg status, store, active⟩) := by
  refine ⟨fun hs => ⟨by simp [initialize_issue, hs], ?_⟩, fun hs => by
    simp [initialize_issue, hs]⟩
  simp only [initialize_issue, hs, if_pos]
  exact lookup_alInsert_self _ _ _

/-- C3 witness: reinitializing an issue that already holds a task resets it. -/
theorem initialize_issue_spec_witness :
    (initialize_issue ⟨[("A", ⟨"d", "New", [("t1", ⟨"T", "", "New"⟩)]⟩)]⟩
        (some "A") "A" "e" "Done").store.issues.lookup "A" =
      some ⟨"e", "Done", []⟩ ∧
    initialize_issue ⟨[]⟩ none "B" "d" "Bogus" =
      ⟨invalidStatusMsg "Bogus", ⟨[]⟩, none⟩ :=
  ⟨((initialize_issue_spec ⟨[("A", ⟨"d", "New", [("t1", ⟨"T", "", "New"⟩)]⟩)]⟩
      (some "A") "A" "e" "Done").1 (by decide)).2,
   (initialize_issue_spec ⟨[]⟩ none "B" "d" "Bogus").2 (by decide)⟩

/-- C4: every task operation returns the NoActiveIssue message when the
session's active-issue reference is falsy, and the issue-variant NotFound
message when the reference does not resolve in the freshly loaded store; in
both failure cases the store the operation leaves is the loaded one,
unchanged. -/
theorem task_ops_guards (store : Store) (active : Option String)
    (title d genId taskId status : String) (filOpt : Option String) :
    (optTruthy active = false →
      add_task store active title d genId = ⟨noActiveIssueMsg, store, active⟩ ∧
      list_tasks store active filOpt = noActiveIssueMsg ∧
      update_task_status store active taskId status =
        ⟨noActiveIssueMsg, store, active⟩) ∧
    (∀ nm, active = some nm → optTruthy active = true →
      store.issues.lookup nm = none →
      add_task store active title d genId = ⟨issueNotFoundMsg nm, store, active⟩ ∧
      list_tasks store active filOpt = issueNotFoundMsg nm ∧
      update_task_status store active taskId status =
        ⟨issueNotFoundMsg nm, store, active⟩) := by
  constructor
  · intro h
    refine ⟨?_, ?_, ?_⟩ <;> simp [add_task, list_tasks, update_task_status, h]
  · intro nm hnm ht hl
    subst hnm
    refine ⟨?_, ?_, ?_⟩ <;>
      simp [add_task, list_tasks, update_task_status, ht, hl, Option.getD]

/-- C4 witness: both failure branches on concrete sessions. -/
theorem task_ops_guards_witness :
    add_task ⟨[]⟩ none "T" "" "ab" = ⟨noActiveIssueMsg, ⟨[]⟩, none⟩ ∧
    list_tasks ⟨[]⟩ (some "X") none = issueNotFoundMsg "X" :=
  ⟨((task_ops_guards ⟨[]⟩ none "T" "" "ab" "t" "New" none).1 rfl).1,
   (((task_ops_guards ⟨[]⟩ (some "X") "T" "" "ab" "t" "New" none).2 "X" rfl
      (by decide) rfl).2).1⟩

/-- C6: with the active issue resolving and the task present, an invalid
status makes `update_task_status` fail with the InvalidStatus message and
leave the store unchanged, while a valid status overwrites exactly that
task's status, saves, and reports the old and the new status in the
message. -/
theorem update_task_status_spec (store : Store) (nm taskId status : String)
    (issue : Issue) (task : Task)
    (hnm : nm ≠ "") (hl : store.issues.lookup nm = some issue)
    (ht : issue.tasks.lookup taskId = some task) :
    (status ∉ taskStatusValues →
      update_task_status store (some nm) taskId status =
        ⟨invalidStatusMsg status, store, some nm⟩) ∧
    (status ∈ taskStatusValues →
      update_task_status store (some nm) taskId status =
        ⟨"Successfully updated task \x27" ++ task.title ++ "\x27 (ID: " ++ taskId ++
           ") status from \x27" ++ task.status ++ "\x27 to \x27" ++ status ++ "\x27.",
         ⟨alInsert nm
            { issue with
              tasks := alInsert taskId { task with status := status } issue.tasks }
            store.issues⟩, some nm⟩ ∧
      (update_task_status store (some nm) taskId status).store.issues.lookup nm =
        some { issue with
               tasks := alInsert taskId { task with status := status } issue.tasks } ∧
      (alInsert taskId { task with status := status } issue.tasks).lookup taskId =
        some { task with status := status }) := by
  have htr : optTruthy (some nm) = true := by simp [optTruthy, hnm]
  constructor
  · intro hs
    simp [update_task_status, htr, hl, ht, hs, Option.getD]
  · intro hs
    refine ⟨?_, ?_, lookup_alInsert_self _ _ _⟩
    · simp [update_task_status, htr, hl, ht, hs, Option.getD]
    · simp only [update_task_status, htr, hl, ht, hs, Option.getD, if_true]
      exact lookup_alInsert_self _ _ _

/-- C6 witness: both branches on a concrete store holding task t1. -/
theorem update_task_status_spec_witness :
    update_task_status ⟨[("A", ⟨"", "New", [("t1", ⟨"T", "", "New"⟩)]⟩)]⟩
        (some "A") "t1" "Bogus" =
      ⟨invalidStatusMsg "Bogus",
       ⟨[("A", ⟨"", "New", [("t1", ⟨"T", "", "New"⟩)]⟩)]⟩, some "A"⟩ ∧
    (update_task_status ⟨[("A", ⟨"", "New", [("t1", ⟨"T", "", "New"⟩)]⟩)]⟩
        (some "A") "t1" "Done").store.issues.lookup "A" =
      some ⟨"", "New", [("t1", ⟨"T", "", "Done"⟩)]⟩ :=
  ⟨(update_task_status_spec ⟨[("A", ⟨"", "New", [("t1", ⟨"T", "", "New"⟩)]⟩)]⟩
      "A" "t1" "Bogus" ⟨"", "New", [("t1", ⟨"T", "", "New"⟩)]⟩ ⟨"T", "", "New"⟩
      (by decide) rfl rfl).1 (by decide),
   ((update_task_status_spec ⟨[("A", ⟨"", "New", [("t1", ⟨"T", "", "New"⟩)]⟩)]⟩
      "A" "t1" "Done" ⟨"", "New", [("t1", ⟨"T", "", "New"⟩)]⟩ ⟨"T", "", "New"⟩
      (by decide) rfl rfl).2 (by decide)).2.1⟩

/-- C10: the empty string is accepted as an issue name and `create_issue`
then sets the active issue to the empty string, yet with that session every
task operation fails with the NoActiveIssue message — even when the
empty-named issue exists in the store — because the truthiness guard
treats the empty string like no selection. -/
theorem empty_active_issue_guard (store : Store)
    (title d genId taskId status : String) (filOpt : Option String)
    (_hex : (store.issues.lookup "").isSome) :
    (create_issue ⟨[]⟩ none "" "" "New").activeIssue = some "" ∧
    ((create_issue ⟨[]⟩ none "" "" "New").store.issues.lookup "").isSome ∧
    add_task store (some "") title d genId = ⟨noActiveIssueMsg, store, some ""⟩ ∧
    list_tasks store (some "") filOpt = noActiveIssueMsg ∧
    update_task_status store (some "") taskId status =
      ⟨noActiveIssueMsg, store, some ""⟩ := by
  refine ⟨rfl, by decide, ?_, ?_, ?_⟩ <;>
    simp [add_task, list_tasks, update_task_status, optTruthy]

/-- C10 witness: run the guards against the store created by the empty-name
`create_issue` itself. -/
theorem empty_active_issue_guard_witness :
    add_task (create_issue ⟨[]⟩ none "" "" "New").store (some "") "T" "" "ab" =
      ⟨noActiveIssueMsg, (create_issue ⟨[]⟩ none "" "" "New").store, some ""⟩ :=
  (empty_active_issue_guard (create_issue ⟨[]⟩ none "" "" "New").store
    "T" "" "ab" "t" "New" none (by decide)).2.2.1

/-- C5: after a successful `add_task` on a resolving active issue, the
returned message carries the generated task id, and a filterless
`list_tasks` renders the joined line list in which the new task's entry
block — its id line, the given title, status New, and the description line
exactly when the description is non-empty — occurs contiguously. -/
theorem add_list_round_trip (store : Store) (nm title d genId : String)
    (issue : Issue) (hnm : nm ≠ "") (hl : store.issues.lookup nm = some issue) :
    (add_task store (some nm) title d genId).msg =
      "Successfully added task: " ++ title ++ " (ID: " ++ genId ++
        ") to issue \x27" ++ nm ++ "\x27" ∧
    list_tasks (add_task store (some nm) title d genId).store (some nm) none =
      String.intercalate "\n"
        (listTasksLines nm
          { issue with tasks := alInsert genId ⟨title, d, "New"⟩ issue.tasks } none) ∧
    taskEntryLines none (genId, ⟨title, d, "New"⟩) <:+:
      listTasksLines nm
        { issue with tasks := alInsert genId ⟨title, d, "New"⟩ issue.tasks } none ∧
    taskEntryLines none (genId, ⟨title, d, "New"⟩) =
      ["\nID: " ++ genId, "Title: " ++ title, "Status: New"] ++
        (if d ≠ "" then ["Description: " ++ d] else []) := by
  have htr : optTruthy (some nm) = true := by simp [optTruthy, hnm]
  have hsn : ("Status: " ++ "New" : String) = "Status: New" := rfl
  have hadd : add_task store (some nm) title d genId =
      ⟨"Successfully added task: " ++ title ++ " (ID: " ++ genId ++
         ") to issue \x27" ++ nm ++ "\x27",
       ⟨alInsert nm { issue with tasks := alInsert genId ⟨title, d, "New"⟩ issue.tasks }
          store.issues⟩, some nm⟩ := by
    simp [add_task, htr, hl, Option.getD]
  have hentry : taskEntryLines none (genId, ⟨title, d, "New"⟩) =
      ["\nID: " ++ genId, "Title: " ++ title, "Status: New"] ++
        (if d ≠ "" then ["Description: " ++ d] else []) := by
    simp [taskEntryLines, optTruthy, hsn]
  have hmem : (genId, (⟨title, d, "New"⟩ : Task)) ∈
      alInsert genId ⟨title, d, "New"⟩ issue.tasks := mem_alInsert_self _ _ _
  obtain ⟨s, t, hst⟩ := List.append_of_mem hmem
  have hflat : (alInsert genId ⟨title, d, "New"⟩ issue.tasks).flatMap (taskEntryLines none) =
      s.flatMap (taskEntryLines none) ++ taskEntryLines none (genId, ⟨title, d, "New"⟩) ++
        t.flatMap (taskEntryLines none) := by
    rw [hst]
    simp [List.flatMap_append, List.append_assoc]
  have hentry_len : 3 ≤ (taskEntryLines none (genId, (⟨title, d, "New"⟩ : Task))).length := by
    rw [hentry]
    by_cases hd : d = "" <;> simp [hd]
  have hflatlen : 3 ≤ ((alInsert genId ⟨title, d, "New"⟩ issue.tasks).flatMap
      (taskEntryLines none)).length := by
    rw [hflat]
    simp only [List.length_append]
    omega
  have hLlen : 4 ≤ (listTasksLines nm
      { issue with tasks := alInsert genId ⟨title, d, "New"⟩ issue.tasks } none).length := by
    simp only [listTasksLines, List.length_cons, List.length_append]
    split_ifs <;>
      simp only [List.length_cons, List.length_nil] <;> omega
  have hne0 : ¬ (alInsert genId ⟨title, d, "New"⟩ issue.tasks).length = 0 := by
    rw [hst]
    simp
  have hfb : ¬ ((listTasksLines nm
        { issue with tasks := alInsert genId ⟨title, d, "New"⟩ issue.tasks } none).length = 1 ∨
      ((listTasksLines nm
        { issue with tasks := alInsert genId ⟨title, d, "New"⟩ issue.tasks } none).length = 2 ∧
        ({ issue with tasks := alInsert genId ⟨title, d, "New"⟩ issue.tasks } : Issue).description ≠ "")) := by
    rintro (h1 | ⟨h2, _⟩) <;> omega
  have hlook : (alInsert nm { issue with tasks := alInsert genId ⟨title, d, "New"⟩ issue.tasks }
      store.issues).lookup nm =
      some { issue with tasks := alInsert genId ⟨title, d, "New"⟩ issue.tasks } :=
    lookup_alInsert_self _ _ _
  refine ⟨by rw [hadd], ?_, ?_, hentry⟩
  · rw [hadd]
    simp only [list_tasks, htr, if_true, Option.getD, hlook]
    simp [hne0, optTruthy, hfb]
  · exact ⟨("Tasks for issue: " ++ nm) ::
      ((if ({ issue with tasks := alInsert genId ⟨title, d, "New"⟩ issue.tasks } : Issue).description ≠ ""
          then ["Issue description: " ++ ({ issue with tasks := alInsert genId ⟨title, d, "New"⟩ issue.tasks } : Issue).description] else []) ++
        s.flatMap (taskEntryLines none)),
      t.flatMap (taskEntryLines none), by
        simp [listTasksLines, hflat, List.append_assoc]⟩

/-- C5 witness: add task "T"/"D" with id ab12 to issue "A" and list it. -/
theorem add_list_round_trip_witness :
    (add_task ⟨[("A", ⟨"", "New", []⟩)]⟩ (some "A") "T" "D" "ab12").msg =
      "Successfully added task: " ++ "T" ++ " (ID: " ++ "ab12" ++
        ") to issue \x27" ++ "A" ++ "\x27" ∧
    list_tasks (add_task ⟨[("A", ⟨"", "New", []⟩)]⟩ (some "A") "T" "D" "ab12").store
        (some "A") none =
      String.intercalate "\n"
        (listTasksLines "A"
          { description := "", status := "New",
            tasks := alInsert "ab12" ⟨"T", "D", "New"⟩ [] } none) ∧
    taskEntryLines none ("ab12", ⟨"T", "D", "New"⟩) <:+:
      listTasksLines "A"
        { description := "", status := "New",
          tasks := alInsert "ab12" ⟨"T", "D", "New"⟩ [] } none ∧
    taskEntryLines none ("ab12", ⟨"T", "D", "New"⟩) =
      ["\nID: " ++ "ab12", "Title: " ++ "T", "Status: New"] ++
        (if ("D" : String) ≠ "" then ["Description: " ++ "D"] else []) :=
  add_list_round_trip ⟨[("A", ⟨"", "New", []⟩)]⟩ "A" "T" "D" "ab12"
    ⟨"", "New", []⟩ (by decide) rfl

/-- C7 counterexample: with the active issue's task mapping empty, an
invalid status filter does not produce the InvalidStatus message — the
empty-tasks message is returned first. -/
theorem list_tasks_empty_invalid_filter_cex :
    list_tasks ⟨[("A", ⟨"", "New", []⟩)]⟩ (some "A") (some "Bogus") =
      "No tasks found in issue \x27A\x27." ∧
    list_tasks ⟨[("A", ⟨"", "New", []⟩)]⟩ (some "A") (some "Bogus") ≠
      invalidStatusMsg "Bogus" := by
  exact ⟨by decide, by decide⟩

/-- C7 amended: when the active issue resolves and its task mapping is
non-empty, a given truthy status filter outside New, InWork, Done makes
`list_tasks` fail with the InvalidStatus message; with an empty task mapping
the empty-tasks message is returned instead, before the filter is
validated. -/
theorem list_tasks_invalid_filter (store : Store) (nm f : String) (issue : Issue)
    (hnm : nm ≠ "") (hl : store.issues.lookup nm = some issue)
    (hf : f ≠ "") (hbad : f ∉ taskStatusValues) :
    (issue.tasks ≠ [] →
      list_tasks store (some nm) (some f) = invalidStatusMsg f) ∧
    (issue.tasks = [] →
      list_tasks store (some nm) (some f) =
        "No tasks found in issue \x27" ++ nm ++ "\x27.") := by
  have htr : optTruthy (some nm) = true := by simp [optTruthy, hnm]
  have hft : optTruthy (some f) = true := by simp [optTruthy, hf]
  constructor
  · intro hne
    have hlen : ¬ issue.tasks.length = 0 := by
      simpa [List.length_eq_zero] using hne
    simp [list_tasks, htr, hl, Option.getD, hlen, hft, hbad]
  · intro hempty
    simp [list_tasks, htr, hl, Option.getD, hempty]

/-- C7 amended witness: a non-empty mapping rejects the filter, an empty one
reports no tasks. -/
theorem list_tasks_invalid_filter_witness :
    list_tasks ⟨[("A", ⟨"", "New", [("t1", ⟨"T", "", "New"⟩)]⟩)]⟩
        (some "A") (some "Bogus") = invalidStatusMsg "Bogus" :=
  (list_tasks_invalid_filter ⟨[("A", ⟨"", "New", [("t1", ⟨"T", "", "New"⟩)]⟩)]⟩
    "A" "Bogus" ⟨"", "New", [("t1", ⟨"T", "", "New"⟩)]⟩
    (by decide) rfl (by decide) (by decide)).1 (by decide)

/-- C8 counterexample: `add_task` never compares the generated identifier
with the existing keys; a drawn identifier that is already a key overwrites
that task in place, and the total task count stays at 1 instead of
increasing to 2. -/
theorem add_task_collision_cex :
    (add_task ⟨[("A", ⟨"", "New", [("t1", ⟨"old", "x", "Done"⟩)]⟩)]⟩
        (some "A") "new" "" "t1").store =
      ⟨[("A", ⟨"", "New", [("t1", ⟨"new", "", "New"⟩)]⟩)]⟩ ∧
    ¬ ((add_task ⟨[("A", ⟨"", "New", [("t1", ⟨"old", "x", "Done"⟩)]⟩)]⟩
          (some "A") "new" "" "t1").store.issues.flatMap
        (fun p => p.2.tasks)).length =
      ((⟨[("A", ⟨"", "New", [("t1", ⟨"old", "x", "Done"⟩)]⟩)]⟩ : Store).issues.flatMap
        (fun p => p.2.tasks)).length + 1 := by
  exact ⟨by decide, by decide⟩

/-- C8 amended: the code performs no collision check; whenever the drawn
identifier is fresh in the active issue's task mapping, `add_task` appends
the new task under it and the task count increases by exactly one, while a
colliding identifier overwrites the existing task in place, leaving the
count unchanged. -/
theorem add_task_fresh_id (store : Store) (nm title d genId : String)
    (issue : Issue) (hnm : nm ≠ "") (hl : store.issues.lookup nm = some issue)
    (hfresh : issue.tasks.lookup genId = none) :
    (add_task store (some nm) title d genId).store.issues.lookup nm =
      some { issue with tasks := issue.tasks ++ [(genId, ⟨title, d, "New"⟩)] } ∧
    ∀ i : Issue,
      (add_task store (some nm) title d genId).store.issues.lookup nm = some i →
      i.tasks.length = issue.tasks.length + 1 ∧
      i.tasks.lookup genId = some ⟨title, d, "New"⟩ := by
  have htr : optTruthy (some nm) = true := by simp [optTruthy, hnm]
  have happ : alInsert genId (⟨title, d, "New"⟩ : Task) issue.tasks =
      issue.tasks ++ [(genId, ⟨title, d, "New"⟩)] := alInsert_eq_append hfresh _
  have hmain : (add_task store (some nm) title d genId).store.issues.lookup nm =
      some { issue with tasks := issue.tasks ++ [(genId, ⟨title, d, "New"⟩)] } := by
    simp only [add_task, htr, if_true, Option.getD, hl, happ]
    exact lookup_alInsert_self _ _ _
  refine ⟨hmain, fun i hi => ?_⟩
  have he : i = { issue with tasks := issue.tasks ++ [(genId, ⟨title, d, "New"⟩)] } := by
    have := hmain.symm.trans hi
    exact (Option.some.injEq _ _ ▸ this).symm ▸ rfl
  subst he
  refine ⟨by simp, ?_⟩
  rw [← happ]
  exact lookup_alInsert_self _ _ _

/-- C8 amended witness: a fresh id appended to an issue already holding t1. -/
theorem add_task_fresh_id_witness :
    (add_task ⟨[("A", ⟨"", "New", [("t1", ⟨"T", "", "New"⟩)]⟩)]⟩
        (some "A") "U" "" "t2").store.issues.lookup "A" =
      some ⟨"", "New", [("t1", ⟨"T", "", "New"⟩), ("t2", ⟨"U", "", "New"⟩)]⟩ :=
  (add_task_fresh_id ⟨[("A", ⟨"", "New", [("t1", ⟨"T", "", "New"⟩)]⟩)]⟩
    "A" "U" "" "t2" ⟨"", "New", [("t1", ⟨"T", "", "New"⟩)]⟩
    (by decide) rfl rfl).1

/-- C9 counterexample: `create_issue` accepts the empty string as a name, so
a store holding an issue whose name is the empty string is reachable from
the empty store, violating the non-empty-name invariant. -/
theorem empty_name_reachable_cex :
    (create_issue ⟨[]⟩ none "" "" "New").store.issues = [("", ⟨"", "New", []⟩)] ∧
    ¬ (∀ p ∈ (create_issue ⟨[]⟩ none "" "" "New").store.issues, p.1 ≠ "") := by
  refine ⟨by decide, fun h => ?_⟩
  exact (h ("", ⟨"", "New", []⟩) (by decide)) rfl

/-- C9 amended: neither `create_issue` nor `initialize_issue` validates the
name; both accept the empty string and store an issue under the empty name,
reporting success. -/
theorem empty_name_accepted :
    (create_issue ⟨[]⟩ none "" "" "New").msg =
      "Successfully created issue: " ++ "" ++ " with status: " ++ "New" ∧
    (create_issue ⟨[]⟩ none "" "" "New").store.issues.lookup "" =
      some ⟨"", "New", []⟩ ∧
    (initialize_issue ⟨[]⟩ none "" "" "New").store.issues.lookup "" =
      some ⟨"", "New", []⟩ := by
  exact ⟨by decide, by decide, by decide⟩

end Backlog
